import Mathlib

/-!
# Verification of the ds-chat backend core

A shallow embedding of the ds-chat repository (a conversational HTTP
front-end over an external database-querying agent) and proofs about it.

The embedded components, and the source files they are translated from:

* the session store (`ChatMessage`, `ChatSession`, `SessionManager`) from
  `src/backend/session_manager.py`;
* the agent lifecycle wrapper (`AgentRunner`) from
  `src/backend/agent_runner.py`;
* the HTTP handlers (`health_check`, `chatTurn`) from `src/backend/app.py`;
* the alternate server variant (`AgentServer`) from
  `src/python-agent/server.py`.

Modelling conventions, applied uniformly:

* `datetime.utcnow().isoformat()` timestamps are modelled as abstract
  `Nat` time points supplied by the caller (the isoformat rendering is
  order-preserving, and no claim depends on the textual format);
* `uuid.uuid4()` is modelled as a caller-supplied identifier, with
  freshness a hypothesis where a claim needs it;
* Python dicts with string keys are modelled as association lists in
  insertion order (`dictInsert` mirrors `d[k] = v`: it overwrites the
  first binding of `k` in place, or appends a new one);
* Python exceptions are values of `Exc`: an exception class, a message,
  and the `__cause__` installed by `raise ... from e`;
* calls into the external agent library (`Runner.run`, subprocess
  start-up) are opaque: each is a parameter giving that call's outcome;
* Python float durations (`time.perf_counter` differences) are opaque
  `Nat` measurements: no claim does float arithmetic on them.
-/

/-- A role/content pair: `ChatMessage` of `src/backend/session_manager.py`
(lines 15-20) and the raw `{"role": ..., "content": ...}` conversation items
the backend appends (`session_manager.py` line 110, `agent_runner.py`
line 144, `src/python-agent/server.py` line 122). -/
structure Msg where
  role : String
  content : String
deriving DecidableEq, Repr

/-- The Python exception classes that appear in the sources: the single
`AgentRunnerError` class of `src/backend/agent_runner.py` (lines 47-49),
`ValueError` raised by `SessionManager.add_message` (line 107),
`AttributeError` raised by a failed attribute lookup, and a generic class
for exceptions thrown by the external agent library. -/
inductive ExcClass where
  | agentRunnerError
  | valueError
  | attributeError
  | externalError
deriving DecidableEq, Repr

/-- An exception without chaining: its class and its `str(...)` message. -/
structure ExcInfo where
  cls : ExcClass
  msg : String
deriving DecidableEq, Repr

/-- A raised exception: its own class and message, and the `__cause__`
installed by `raise ... from e` (`none` for a bare `raise`). -/
structure Exc where
  info : ExcInfo
  cause : Option ExcInfo
deriving DecidableEq, Repr

/-- A string-keyed counter/usage dict (`dict[str, int]`), in insertion
order, as an association list. -/
abbrev NatDict := List (String × Nat)

/-- The `last_response` payload `SessionManager.add_message` stores
(`session_manager.py` lines 116-120): the `tools`, `tokens` and `time_ms`
entries extracted from the supplied metadata. -/
structure LastResponse where
  tools : NatDict
  tokens : NatDict
  time_ms : Nat
deriving DecidableEq, Repr

/-- The metadata dict passed to `add_message`. In this codebase the only
caller that passes metadata (`app.py` line 188) builds a dict with exactly
the keys `tools`, `tokens` and `time_ms`, so the dict is modelled by three
optional fields; a field is `none` when its key is absent. -/
structure MsgMetadata where
  tools : Option NatDict
  tokens : Option NatDict
  time_ms : Option Nat
deriving DecidableEq, Repr

/-- Python truthiness of the metadata dict (`if metadata:` at
`session_manager.py` line 114): an empty dict is falsy, a dict with at
least one key is truthy. -/
def MsgMetadata.isTruthy (m : MsgMetadata) : Bool :=
  m.tools.isSome || m.tokens.isSome || m.time_ms.isSome

/-- A session's `metadata` dict. The backend only ever writes the key
`last_response` into it (`session_manager.py` line 116), so it is modelled
by that one optional entry; `none` means the key is absent (the `{}` set
by `__post_init__`). -/
structure SessionMetadata where
  last_response : Option LastResponse
deriving DecidableEq, Repr

/-- `ChatSession` of `src/backend/session_manager.py` (lines 23-45):
identity, creation/update timestamps, the ordered message list, and the
metadata map. Timestamps are abstract `Nat` time points. -/
structure ChatSession where
  session_id : String
  created_at : Nat
  updated_at : Nat
  messages : List Msg
  metadata : SessionMetadata
deriving DecidableEq, Repr

/-- Python dict lookup `d.get(k)` over an association list. -/
def dictLookup (k : String) : List (String × ChatSession) → Option ChatSession
  | [] => none
  | p :: rest => if p.1 = k then some p.2 else dictLookup k rest

/-- Python dict assignment `d[k] = v` over an association list: overwrite
the first binding of `k` in place, else append a new binding. -/
def dictInsert (k : String) (v : ChatSession) :
    List (String × ChatSession) → List (String × ChatSession)
  | [] => [(k, v)]
  | p :: rest => if p.1 = k then (k, v) :: rest else p :: dictInsert k v rest

/-- `SessionManager` of `src/backend/session_manager.py` (lines 48-66): the
in-memory session table, a dict from session id to session. The backend app
constructs it with `persist_dir=None` (`app.py` line 79); the snapshot
persistence path is modelled separately by `ChatSession.to_dict`,
`SessionManager.save_session_doc` and `SessionManager.load_all_sessions`,
which work on the JSON documents `_save_session`/`_load_all_sessions`
write and read. -/
structure SessionManager where
  sessions : List (String × ChatSession)
deriving DecidableEq, Repr

/-- `SessionManager.get_session` (lines 89-91): `self.sessions.get(session_id)`. -/
def SessionManager.get_session (m : SessionManager) (session_id : String) :
    Option ChatSession :=
  dictLookup session_id m.sessions

/-- The `ChatSession(...)` a fresh `create_session` call constructs
(`session_manager.py` lines 78-83): empty message list, `created_at =
updated_at = now`, metadata defaulted to the empty dict by
`__post_init__`. -/
def blankSession (fresh_id : String) (now : Nat) : ChatSession :=
  { session_id := fresh_id, created_at := now, updated_at := now,
    messages := [], metadata := { last_response := none } }

/-- `SessionManager.create_session` (lines 68-87): allocate a fresh id
(`uuid.uuid4()`, modelled as the argument `fresh_id`), build the blank
session, store it, and return its id. -/
def SessionManager.create_session (m : SessionManager) (fresh_id : String)
    (now : Nat) : SessionManager × String :=
  ({ sessions := dictInsert fresh_id (blankSession fresh_id now) m.sessions },
   fresh_id)

/-- The `last_response` payload `add_message` builds from the supplied
metadata (`session_manager.py` lines 116-120): `metadata.get("tools", {})`,
`metadata.get("tokens", {})`, `metadata.get("time_ms", 0)`. -/
def extractLastResponse (md : MsgMetadata) : LastResponse :=
  { tools := md.tools.getD [], tokens := md.tokens.getD [],
    time_ms := md.time_ms.getD 0 }

/-- `SessionManager.add_message` (lines 93-126): look the session up
(raising `ValueError` when unknown), append `{"role": role, "content":
content}` to its message list, overwrite `metadata["last_response"]` when a
truthy metadata dict is supplied and the role is `"assistant"`, and set
`updated_at` to now. -/
def SessionManager.add_message (m : SessionManager) (session_id role content : String)
    (metadata : Option MsgMetadata) (now : Nat) : Except Exc SessionManager :=
  match m.get_session session_id with
  | none =>
      .error { info := { cls := .valueError,
                         msg := "Session " ++ session_id ++ " not found" },
               cause := none }
  | some session =>
      let session := { session with messages := session.messages ++ [Msg.mk role content] }
      let session :=
        match metadata with
        | none => session
        | some md =>
            if md.isTruthy then
              if role = "assistant" then
                { session with metadata := { last_response := some (extractLastResponse md) } }
              else session
            else session
      let session := { session with updated_at := now }
      .ok { sessions := dictInsert session_id session m.sessions }

/-- `SessionManager.get_conversation_items` (lines 128-142): the stored
messages, or `None` when the session is unknown or has no messages. -/
def SessionManager.get_conversation_items (m : SessionManager)
    (session_id : String) : Option (List Msg) :=
  match m.get_session session_id with
  | none => none
  | some s => if s.messages = [] then none else some s.messages

/-- `SessionManager.delete_session` (lines 148-160): remove the in-memory
entry (the on-disk snapshot unlink is a no-op for the in-memory manager)
and report whether a session existed. -/
def SessionManager.delete_session (m : SessionManager) (session_id : String) :
    SessionManager × Bool :=
  match m.get_session session_id with
  | none => (m, false)
  | some _ =>
      ({ sessions := m.sessions.filter (fun p => !(p.1 = session_id : Bool)) }, true)

section DictLemmas

theorem dictLookup_dictInsert_self (k : String) (v : ChatSession)
    (l : List (String × ChatSession)) :
    dictLookup k (dictInsert k v l) = some v := by
  induction l with
  | nil => simp [dictInsert, dictLookup]
  | cons p rest ih =>
      by_cases h : p.1 = k
      · simp [dictInsert, dictLookup, h]
      · simp [dictInsert, dictLookup, h, ih]

theorem dictLookup_dictInsert_ne (k j : String) (v : ChatSession)
    (l : List (String × ChatSession)) (h : j ≠ k) :
    dictLookup j (dictInsert k v l) = dictLookup j l := by
  induction l with
  | nil => simp [dictInsert, dictLookup, Ne.symm h]
  | cons p rest ih =>
      by_cases hp : p.1 = k
      · simp [dictInsert, dictLookup, hp, h, Ne.symm h]
      · simp [dictInsert, dictLookup, hp, ih]

end DictLemmas

/-! ## Snapshot persistence (`session_manager.py` lines 37-45 and 169-196)

`_save_session` serialises `session.to_dict()` as one JSON document and
`_load_all_sessions` parses each document back with `ChatSession(**data)`.
The model works at the level of JSON values (the content of the document):
`json.dump`/`json.load` string rendering is elided, which is faithful for
the string/number/list/object values this codebase writes. -/

/-- A JSON value, as written and read by the persistence path. -/
inductive Json where
  | null : Json
  | str : String → Json
  | num : Nat → Json
  | arr : List Json → Json
  | obj : List (String × Json) → Json

/-- Field lookup in a JSON object's field list. -/
def jLookup (k : String) : List (String × Json) → Option Json
  | [] => none
  | p :: rest => if p.1 = k then some p.2 else jLookup k rest

/-- Encode a `dict[str, int]`. -/
def natDictToJson (d : NatDict) : Json :=
  .obj (d.map fun p => (p.1, .num p.2))

/-- Decode a `dict[str, int]`. -/
def natDictOfJson : Json → Option NatDict
  | .obj fields =>
      fields.foldr
        (fun p acc =>
          match p, acc with
          | (k, .num n), some d => some ((k, n) :: d)
          | _, _ => none)
        (some [])
  | _ => none

/-- Encode one conversation item (`{"role": ..., "content": ...}`). -/
def Msg.toJson (m : Msg) : Json :=
  .obj [("role", .str m.role), ("content", .str m.content)]

/-- Decode one conversation item. -/
def Msg.ofJson : Json → Option Msg
  | .obj fields =>
      match jLookup "role" fields, jLookup "content" fields with
      | some (.str role), some (.str content) => some ⟨role, content⟩
      | _, _ => none
  | _ => none

/-- Decode a message list. -/
def decodeMsgs : List Json → Option (List Msg)
  | [] => some []
  | j :: rest =>
      match Msg.ofJson j, decodeMsgs rest with
      | some m, some ms => some (m :: ms)
      | _, _ => none

/-- Encode the `last_response` payload. -/
def LastResponse.toJson (lr : LastResponse) : Json :=
  .obj [("tools", natDictToJson lr.tools), ("tokens", natDictToJson lr.tokens),
        ("time_ms", .num lr.time_ms)]

/-- Decode the `last_response` payload (the shape `add_message` stores:
exactly the `tools`, `tokens` and `time_ms` entries). -/
def LastResponse.ofJson : Json → Option LastResponse
  | .obj fields =>
      match jLookup "tools" fields, jLookup "tokens" fields,
            jLookup "time_ms" fields with
      | some tj, some kj, some (.num t) =>
          match natDictOfJson tj, natDictOfJson kj with
          | some tools, some tokens => some ⟨tools, tokens, t⟩
          | _, _ => none
      | _, _, _ => none
  | _ => none

/-- Encode a session's metadata dict: `{}` when no `last_response` was
stored, else the one `last_response` entry. -/
def SessionMetadata.toJson (sm : SessionMetadata) : Json :=
  match sm.last_response with
  | none => .obj []
  | some lr => .obj [("last_response", lr.toJson)]

/-- Decode a session's metadata dict. -/
def SessionMetadata.ofJson : Json → Option SessionMetadata
  | .obj fields =>
      match jLookup "last_response" fields with
      | none => some { last_response := none }
      | some lrj => (LastResponse.ofJson lrj).map fun lr => { last_response := some lr }
  | _ => none

/-- `ChatSession.to_dict` (`session_manager.py` lines 37-45): the JSON
document `_save_session` writes. -/
def ChatSession.to_dict (s : ChatSession) : Json :=
  .obj [("session_id", .str s.session_id),
        ("created_at", .num s.created_at),
        ("updated_at", .num s.updated_at),
        ("messages", .arr (s.messages.map Msg.toJson)),
        ("metadata", s.metadata.toJson)]

/-- The parameter names of the `ChatSession` dataclass: `ChatSession(**data)`
rejects any other key. -/
def chatSessionKeys : List String :=
  ["session_id", "created_at", "updated_at", "messages", "metadata"]

/-- `ChatSession(**data)` applied to a loaded JSON document
(`session_manager.py` line 193), including `__post_init__` (lines 33-35):
a `null` or absent `metadata` becomes the empty dict. `none` is any
document on which the constructor (or this typed reading of the stored
shapes) fails; `_load_all_sessions` skips such a file with a warning. -/
def ChatSession.ofDict : Json → Option ChatSession
  | .obj fields =>
      if fields.all (fun p => chatSessionKeys.contains p.1) then
        match jLookup "session_id" fields, jLookup "created_at" fields,
              jLookup "updated_at" fields, jLookup "messages" fields with
        | some (.str sid), some (.num c), some (.num u), some (.arr msgJs) =>
            match decodeMsgs msgJs with
            | none => none
            | some msgs =>
                match jLookup "metadata" fields with
                | none => some ⟨sid, c, u, msgs, { last_response := none }⟩
                | some .null => some ⟨sid, c, u, msgs, { last_response := none }⟩
                | some mj => (SessionMetadata.ofJson mj).map fun md => ⟨sid, c, u, msgs, md⟩
        | _, _, _, _ => none
      else none
  | _ => none

/-- `SessionManager._save_session` (lines 171-182), as the document written
for `session_id`: `None` when the session is unknown (the method returns
without writing). -/
def SessionManager.save_session_doc (m : SessionManager) (session_id : String) :
    Option Json :=
  (m.get_session session_id).map ChatSession.to_dict

/-- `SessionManager._load_all_sessions` (lines 184-196): fold the snapshot
documents into the table, storing each decoded session under its own
`session_id` and skipping (with a logged warning) any document that fails
to decode. -/
def SessionManager.load_all_sessions (files : List Json) (m : SessionManager) :
    SessionManager :=
  files.foldl
    (fun acc doc =>
      match ChatSession.ofDict doc with
      | some s => { sessions := dictInsert s.session_id s acc.sessions }
      | none => acc)
    m

/-- The empty in-memory table a freshly constructed manager starts from. -/
def emptyManager : SessionManager := { sessions := [] }

section RoundTripLemmas

theorem natDict_roundtrip (d : NatDict) : natDictOfJson (natDictToJson d) = some d := by
  induction d with
  | nil => rfl
  | cons p rest ih =>
      cases p
      simp [natDictToJson, natDictOfJson] at ih ⊢
      rw [ih]

theorem msg_roundtrip (m : Msg) : Msg.ofJson m.toJson = some m := by
  cases m
  simp [Msg.toJson, Msg.ofJson, jLookup]

theorem decodeMsgs_roundtrip (ms : List Msg) :
    decodeMsgs (ms.map Msg.toJson) = some ms := by
  induction ms with
  | nil => rfl
  | cons m rest ih => simp [decodeMsgs, msg_roundtrip, ih]

theorem lastResponse_roundtrip (lr : LastResponse) :
    LastResponse.ofJson lr.toJson = some lr := by
  cases lr
  simp [LastResponse.toJson, LastResponse.ofJson, jLookup, natDict_roundtrip]

theorem sessionMetadata_roundtrip (sm : SessionMetadata) :
    SessionMetadata.ofJson sm.toJson = some sm := by
  cases sm with
  | mk lr =>
      cases lr with
      | none => rfl
      | some v => simp [SessionMetadata.toJson, SessionMetadata.ofJson, jLookup,
                        lastResponse_roundtrip]

theorem chatSession_roundtrip (s : ChatSession) :
    ChatSession.ofDict s.to_dict = some s := by
  cases s with
  | mk sid c u msgs md =>
      cases md with
      | mk lr =>
          cases lr with
          | none =>
              simp [ChatSession.to_dict, ChatSession.ofDict, jLookup, chatSessionKeys,
                    decodeMsgs_roundtrip, SessionMetadata.toJson, SessionMetadata.ofJson]
          | some v =>
              simp [ChatSession.to_dict, ChatSession.ofDict, jLookup, chatSessionKeys,
                    decodeMsgs_roundtrip, SessionMetadata.toJson, SessionMetadata.ofJson,
                    lastResponse_roundtrip]

end RoundTripLemmas

/-! ## Agent lifecycle wrapper (`src/backend/agent_runner.py`)

`AgentRunner` owns the MCP tool subprocess handle (`mcp_server`) and the
constructed agent object (`agent_instance`), both `None` until
initialization. The external objects are opaque: a `Nat` stands for a live
object reference. -/

/-- The default `COMMON_TABLES` list (`agent_runner.py` lines 41-44). -/
def COMMON_TABLES : List String :=
  ["prod.monitoring.provider_combined_audit",
   "local.analytics.market_level_anomalies_v3"]

/-- `AgentRunner.__init__` state (`agent_runner.py` lines 58-68): the table
list and the two handles, `None` until initialization succeeds. `__init__`
sets no other attribute, and no other method of the class sets one. -/
structure AgentRunner where
  common_tables : List String
  mcp_server : Option Nat
  agent_instance : Option Nat
deriving DecidableEq, Repr

/-- The outcomes of the external calls one run of `AgentRunner.initialize`
makes, in program order: `GenericDatabaseMCPAgent(...)` construction (with
`get_server_name`), `MCPServerStdio(...)` construction, `await
self.mcp_server.__aenter__()` (the subprocess start and handshake), and
`agent.build(...)`. A `Nat` payload is the opaque object the call returns. -/
structure InitEnv where
  agentCtor : Except ExcInfo Nat
  serverCtor : Except ExcInfo Nat
  aenter : Except ExcInfo Unit
  build : Except ExcInfo Nat
deriving Repr

/-- The `AgentRunnerError` raised by the `except` clause of `initialize`
(`agent_runner.py` lines 114-115): message `"Failed to initialize agent:
{e}"`, cause `e`. -/
def wrapInitError (e : ExcInfo) : Exc :=
  { info := { cls := .agentRunnerError, msg := "Failed to initialize agent: " ++ e.msg },
    cause := some e }

/-- `AgentRunner.initialize` (`agent_runner.py` lines 70-115). Returns the
runner state after the call together with the call's outcome. The early
return (lines 75-76) fires whenever `mcp_server` is set. On the success
path the assignment `self.mcp_server = MCPServerStdio(...)` (line 102)
happens before `await self.mcp_server.__aenter__()` (line 109), so a
failure of the subprocess start, handshake or `agent.build` leaves
`mcp_server` assigned: the `except` clause (lines 114-115) wraps and
re-raises but resets nothing. -/
def AgentRunner.initAgent (s : AgentRunner) (env : InitEnv) :
    AgentRunner × Except Exc Unit :=
  if s.mcp_server.isSome then (s, .ok ())
  else
    match env.agentCtor with
    | .error e => (s, .error (wrapInitError e))
    | .ok _agent =>
        match env.serverCtor with
        | .error e => (s, .error (wrapInitError e))
        | .ok srv =>
            let s1 : AgentRunner := { s with mcp_server := some srv }
            match env.aenter with
            | .error e => (s1, .error (wrapInitError e))
            | .ok _ =>
                match env.build with
                | .error e => (s1, .error (wrapInitError e))
                | .ok inst => ({ s1 with agent_instance := some inst }, .ok ())

/-- The `input` argument `run_turn` passes to `Runner.run`
(`agent_runner.py` lines 140-144): the bare user string when there is no
prior conversation, else the item list with the user message appended. -/
inductive InputPayload where
  | str : String → InputPayload
  | items : List Msg → InputPayload
deriving DecidableEq, Repr

/-- Lines 140-144 of `agent_runner.py`: build the input payload. -/
def buildInputPayload (user_message : String) :
    Option (List Msg) → InputPayload
  | none => .str user_message
  | some conversation_items => .items (conversation_items ++ [⟨"user", user_message⟩])

/-- Per-response token usage as `run_turn` probes it (`agent_runner.py`
lines 170-174): each field is `getattr(resp.usage, ..., 0)` and a `None`
value counts as zero (`or 0`), modelled as an optional `Nat`. -/
structure Usage where
  input_tokens : Option Nat
  output_tokens : Option Nat
  total_tokens : Option Nat
deriving DecidableEq, Repr

/-- The parts of the opaque `Runner.run` result that `run_turn` reads:
`final_output` (possibly `None`), per item of `new_items` the tool name
reached by `getattr(item, "raw_item", None)` / `getattr(raw, "name",
None)` (`none` when either probe yields nothing), and per entry of
`raw_responses` its `usage` object (`none` when falsy). -/
structure RunnerResult where
  final_output : Option String
  new_items : List (Option String)
  raw_responses : List (Option Usage)
deriving DecidableEq, Repr

/-- Python `str.strip()` with no argument (line 152 of `agent_runner.py`):
remove leading and trailing whitespace. -/
def pyStrip (s : String) : String :=
  String.mk (((s.data.dropWhile Char.isWhitespace).reverse.dropWhile
    Char.isWhitespace).reverse)

/-- Lines 155-160 of `agent_runner.py`: collect the truthy tool names of
the run's item trace (a `None` or empty name is skipped). -/
def collectToolNames : List (Option String) → List String
  | [] => []
  | none :: rest => collectToolNames rest
  | some name :: rest =>
      if name = "" then collectToolNames rest else name :: collectToolNames rest

/-- One `Counter` update: bump `name`, keeping first-occurrence order. -/
def incrCount (acc : NatDict) (name : String) : NatDict :=
  match acc with
  | [] => [(name, 1)]
  | p :: rest => if p.1 = name then (p.1, p.2 + 1) :: rest else p :: incrCount rest name

/-- Line 162 of `agent_runner.py`: `dict(Counter(tools))` — tally the tool
names into a counting map (empty when no tool was invoked). -/
def countTools (names : List String) : NatDict :=
  names.foldl incrCount []

/-- Lines 165-174 of `agent_runner.py`: sum the token usage across
responses, treating a falsy `usage` or an absent/None field as zero; the
result always carries the three keys. -/
def sumUsage (raw_responses : List (Option Usage)) : NatDict :=
  let totals :=
    raw_responses.foldl
      (fun (acc : Nat × Nat × Nat) r =>
        match r with
        | none => acc
        | some u =>
            (acc.1 + u.input_tokens.getD 0,
             acc.2.1 + u.output_tokens.getD 0,
             acc.2.2 + u.total_tokens.getD 0))
      (0, 0, 0)
  [("input_tokens", totals.1), ("output_tokens", totals.2.1),
   ("total_tokens", totals.2.2)]

/-- The tuple `run_turn` returns (`agent_runner.py` line 176): response
text, tools-used map, token-usage map, and the elapsed time measured around
the run (an opaque `Nat` duration). -/
structure TurnResult where
  response_text : String
  tools_used : NatDict
  token_usage : NatDict
  time_taken : Nat
deriving DecidableEq, Repr

/-- `AgentRunner.run_turn` (`agent_runner.py` lines 117-179).
`runner_run` gives the outcome of the opaque `await Runner.run(...)` call
on the payload it is given, and `dt` the elapsed time measured around it.
A non-ready handle raises `AgentRunnerError("Agent not initialized. Call
initialize() first.")` with no cause (line 135-136, outside the `try`); a
failing run raises `AgentRunnerError("Agent execution failed: {e}")` with
cause `e` (lines 178-179). On success the final output is stripped and the
tool and usage maps are extracted. -/
def AgentRunner.run_turn (r : AgentRunner) (user_message : String)
    (conversation_items : Option (List Msg))
    (runner_run : InputPayload → Except ExcInfo RunnerResult)
    (dt : Nat) : Except Exc TurnResult :=
  if r.agent_instance = none then
    .error { info := { cls := .agentRunnerError,
                       msg := "Agent not initialized. Call initialize() first." },
             cause := none }
  else
    match runner_run (buildInputPayload user_message conversation_items) with
    | .error e =>
        .error { info := { cls := .agentRunnerError,
                           msg := "Agent execution failed: " ++ e.msg },
                 cause := some e }
    | .ok result =>
        .ok { response_text := pyStrip (result.final_output.getD ""),
              tools_used := countTools (collectToolNames result.new_items),
              token_usage := sumUsage result.raw_responses,
              time_taken := dt }

/-! ## HTTP handlers (`src/backend/app.py`)

The process-wide state the handlers read is `_agent_runner : AgentRunner |
None` (set to `None` by the lifespan handler when agent initialization
fails at startup, `app.py` line 92) and the session manager. -/

/-- The `/health` response model (`app.py` lines 61-65). -/
structure HealthResponse where
  status : String
  agent_initialized : Bool
deriving DecidableEq, Repr

/-- The attribute lookup `runner._executor` performed by `health_check`
(`app.py` line 132) and by `chat` (line 151). `AgentRunner.__init__`
(`agent_runner.py` lines 58-68) sets only `common_tables`, `mcp_server`
and `agent_instance`, no method of the class sets an `_executor`
attribute, and the class defines no `__getattr__`; so on every
`AgentRunner` object this lookup raises `AttributeError`. `Empty` records
that no value can come back. -/
def AgentRunner.attrExecutor (_r : AgentRunner) : Except Exc Empty :=
  .error { info := { cls := .attributeError,
                     msg := "AgentRunner object has no attribute _executor" },
           cause := none }

/-- `health_check` (`app.py` lines 127-133), evaluated over the process
state `_agent_runner`. The condition `_agent_runner is not None and
_agent_runner._executor.agent_instance is not None` short-circuits: with
`_agent_runner = None` it is `False` and the endpoint answers; otherwise
the `_executor` lookup runs (and raises, which FastAPI surfaces as a 500
rather than a health body). -/
def health_check (agent_runner : Option AgentRunner) :
    Except Exc HealthResponse :=
  match agent_runner with
  | none => .ok { status := "ok", agent_initialized := false }
  | some r =>
      match r.attrExecutor with
      | .error e => .error e
      | .ok ex => ex.elim

/-- An `HTTPException`: status code and detail string. -/
structure HTTPError where
  status_code : Nat
  detail : String
deriving DecidableEq, Repr

/-- The `except` clauses of the `chat` endpoint (`app.py` lines 199-204):
an `AgentRunnerError` becomes a 500 with detail `"Agent error: {e}"`, any
other exception a 500 with detail `"Internal server error: {e}"`. -/
def excToHTTP (e : Exc) : HTTPError :=
  if e.info.cls = .agentRunnerError then
    { status_code := 500, detail := "Agent error: " ++ e.info.msg }
  else
    { status_code := 500, detail := "Internal server error: " ++ e.info.msg }

/-- The chat request model (`app.py` lines 27-31). -/
structure ChatRequest where
  session_id : Option String
  message : String
deriving DecidableEq, Repr

/-- The chat response model (`app.py` lines 34-42), without the unused
`error` field (never set on the success path). -/
structure ChatResponse where
  session_id : String
  response : String
  tools : NatDict
  tokens : NatDict
  time_ms : Nat
deriving DecidableEq, Repr

/-- Python truthiness of `request.session_id` (`if not session_id:` at
`app.py` line 163): `None` and the empty string are falsy. -/
def strFalsy : Option String → Bool
  | none => true
  | some s => s = ""

/-- Pop the next caller-supplied fresh id (`uuid.uuid4()`). -/
def popId : List String → String × List String
  | [] => ("", [])
  | i :: rest => (i, rest)

/-- Pop the next clock reading (`datetime.utcnow()`). -/
def popT : List Nat → Nat × List Nat
  | [] => (0, [])
  | t :: rest => (t, rest)

/-- The create-or-get block of the `chat` endpoint (`app.py` lines
162-172): a falsy `session_id` creates a fresh session; a supplied id that
is unknown creates a fresh session (whose generated id is discarded),
keeps the supplied id, and — since that id is still not in the table —
creates and uses a second fresh session. Returns the updated manager, the
session id the rest of the handler uses, and the unconsumed id/clock
streams. -/
def createOrGetSession (mgr : SessionManager) (session_id : Option String)
    (ids : List String) (ts : List Nat) :
    SessionManager × String × List String × List Nat :=
  if strFalsy session_id then
    let (i, ids1) := popId ids
    let (t, ts1) := popT ts
    let (mgr1, sid) := mgr.create_session i t
    (mgr1, sid, ids1, ts1)
  else
    let sid := session_id.getD ""
    match mgr.get_session sid with
    | some _ => (mgr, sid, ids, ts)
    | none =>
        let (i1, ids1) := popId ids
        let (t1, ts1) := popT ts
        let (mgr1, _) := mgr.create_session i1 t1
        if (mgr1.get_session sid).isSome then (mgr1, sid, ids1, ts1)
        else
          let (i2, ids2) := popId ids1
          let (t2, ts2) := popT ts1
          let (mgr2, sid2) := mgr1.create_session i2 t2
          (mgr2, sid2, ids2, ts2)

/-- The body of the `chat` endpoint's `try` block (`app.py` lines 160-204),
entered after the guards at lines 148-158: create or get the session, fetch
its conversation history, run the turn, and only on success append the user
message and then the assistant message (the latter carrying the
`tools`/`tokens`/`time_ms` metadata, with `time_ms = time_taken * 1000`).
`ids` and `ts` supply the fresh ids and clock readings consumed in order;
`runner_run` and `dt` are the opaque agent-run outcome and its measured
duration, as in `AgentRunner.run_turn`. An exception is mapped to an
`HTTPException` by the `except` clauses. -/
def chatTurn (mgr : SessionManager) (request : ChatRequest)
    (ids : List String) (ts : List Nat)
    (runner_run : InputPayload → Except ExcInfo RunnerResult) (dt : Nat)
    (runner : AgentRunner) : SessionManager × Except HTTPError ChatResponse :=
  let (mgr1, session_id, _, ts1) := createOrGetSession mgr request.session_id ids ts
  let conversation_items := mgr1.get_conversation_items session_id
  match runner.run_turn request.message conversation_items runner_run dt with
  | .error e => (mgr1, .error (excToHTTP e))
  | .ok tr =>
      let (t1, ts2) := popT ts1
      match mgr1.add_message session_id "user" request.message none t1 with
      | .error e => (mgr1, .error (excToHTTP e))
      | .ok mgr2 =>
          let (t2, _) := popT ts2
          let md : MsgMetadata :=
            { tools := some tr.tools_used, tokens := some tr.token_usage,
              time_ms := some (tr.time_taken * 1000) }
          match mgr2.add_message session_id "assistant" tr.response_text (some md) t2 with
          | .error e => (mgr2, .error (excToHTTP e))
          | .ok mgr3 =>
              (mgr3, .ok { session_id := session_id, response := tr.response_text,
                           tools := tr.tools_used, tokens := tr.token_usage,
                           time_ms := tr.time_taken * 1000 })

/-! ## The alternate server variant (`src/python-agent/server.py`) -/

namespace AgentServer

/-- The `/chat` request model (`server.py` lines 48-52): the new user
message, an optional message list with an optional system prompt, and an
optional explicit full conversation. Conversation items are modelled as
role/content pairs, the shape this codebase produces and appends. -/
structure ChatRequest where
  input : String
  messages : List Msg
  prompt : Option String
  conversation : Option (List Msg)
deriving DecidableEq, Repr

/-- Python truthiness of `payload.conversation` (`if payload.conversation:`
at `server.py` line 114): `None` and the empty list are falsy. -/
def truthyConversation : Option (List Msg) → Bool
  | none => false
  | some [] => false
  | some (_ :: _) => true

/-- Python truthiness of `payload.prompt` (`if payload.prompt:` at line
119): `None` and the empty string are falsy. -/
def truthyPrompt : Option String → Bool
  | none => false
  | some s => !(s = "" : Bool)

/-- `_build_agent_input` (`server.py` lines 113-123): a truthy explicit
conversation is copied and used as the whole prefix; otherwise the prefix
is the optional system prompt followed by the supplied message list; the
new user message is appended last in every case. -/
def _build_agent_input (payload : ChatRequest) : List Msg :=
  (if truthyConversation payload.conversation then
    payload.conversation.getD []
   else
    (if truthyPrompt payload.prompt then
      [⟨"system", payload.prompt.getD ""⟩]
     else []) ++ payload.messages)
  ++ [⟨"user", payload.input⟩]

end AgentServer

/-! ## Concurrent first-request interleavings

Both initialization paths run under asyncio's single-threaded cooperative
scheduler: a coroutine runs atomically between awaits. Each path has
exactly one suspension point, `await ...__aenter__()`, which is the call
that starts the tool subprocess; so one coroutine is modelled by a program
counter with three values, and entering the await counts one subprocess
start attempt. -/

/-- A coroutine's position in its initialization body: before the entry
readiness check, suspended inside `await ...__aenter__()`, or finished. -/
inductive Pc where
  | entry : Pc
  | waiting : Pc
  | done : Pc
deriving DecidableEq, Repr

/-- Shared state for concurrent runs of `AgentRunner.initialize`
(`agent_runner.py` lines 70-115): the runner object and the number of
subprocess start attempts made so far. -/
structure BackendInitState where
  runner : AgentRunner
  spawn_attempts : Nat
deriving DecidableEq, Repr

/-- One atomic segment of `AgentRunner.initialize`, from the given program
counter. From `entry`, the check `if self.mcp_server is not None: return`
(line 75) either finishes, or the coroutine runs synchronously — agent
construction, environment setup, `MCPServerStdio(...)` and the assignment
`self.mcp_server = ...` (line 102) contain no await — and then suspends in
`await self.mcp_server.__aenter__()` (line 109), starting the subprocess.
From `waiting`, the resumed coroutine assigns `self.agent_instance` (line
112) and finishes. External calls are taken to succeed: the model isolates
the concurrency behaviour (failure paths are `AgentRunner.initAgent`). -/
def backendInitStep (s : BackendInitState) (pc : Pc) : BackendInitState × Pc :=
  match pc with
  | .entry =>
      if s.runner.mcp_server.isSome then (s, .done)
      else
        ({ runner := { s.runner with mcp_server := some 0 },
           spawn_attempts := s.spawn_attempts + 1 }, .waiting)
  | .waiting =>
      ({ s with runner := { s.runner with agent_instance := some 0 } }, .done)
  | .done => (s, .done)

/-- Shared state for concurrent runs of `_ensure_agent_initialized`
(`server.py` lines 88-96): the module globals `_agent_instance` and
`_server_cm`, and the number of subprocess start attempts. -/
structure ServerInitState where
  agent_instance : Option Nat
  server_cm : Option Nat
  spawn_attempts : Nat
deriving DecidableEq, Repr

/-- One atomic segment of `_ensure_agent_initialized`. From `entry`, the
check `if _agent_instance is not None: return` (lines 90-91) either
finishes, or the coroutine constructs the agent and `_server_cm =
_agent.create_mcp_server()` synchronously and suspends in `server = await
_server_cm.__aenter__()` (line 95), starting the subprocess — note that
`_agent_instance`, the field the entry check reads, is still `None` at
this point. From `waiting`, the resumed coroutine assigns
`_agent_instance = _agent.build(server)` (line 96) and finishes. -/
def serverInitStep (s : ServerInitState) (pc : Pc) : ServerInitState × Pc :=
  match pc with
  | .entry =>
      if s.agent_instance.isSome then (s, .done)
      else
        ({ s with server_cm := some 0,
                  spawn_attempts := s.spawn_attempts + 1 }, .waiting)
  | .waiting =>
      ({ s with agent_instance := some 0 }, .done)
  | .done => (s, .done)

/-- Run a schedule over `n` coroutines: each schedule entry names the
coroutine that runs its next atomic segment (an out-of-range index is
skipped). This is exactly the nondeterminism the cooperative scheduler
has: which suspended or not-yet-started coroutine runs next. -/
def runSched {σ : Type} (step : σ → Pc → σ × Pc) :
    σ → List Pc → List Nat → σ × List Pc
  | s, pcs, [] => (s, pcs)
  | s, pcs, i :: rest =>
      match pcs[i]? with
      | none => runSched step s pcs rest
      | some pc =>
          let (s1, pc1) := step s pc
          runSched step s1 (pcs.set i pc1) rest

/-! ## Shared concrete fixtures -/

/-- A freshly constructed runner (`AgentRunner()` with the default
tables): both handles `None`. -/
def freshRunner : AgentRunner :=
  { common_tables := COMMON_TABLES, mcp_server := none, agent_instance := none }

/-- A runner whose initialization succeeded: both handles live. -/
def readyRunner : AgentRunner :=
  { common_tables := COMMON_TABLES, mcp_server := some 0, agent_instance := some 1 }

/-- A run outcome with final text and no tool calls or usage records. -/
def plainRunResult : RunnerResult :=
  { final_output := some "Hi there", new_items := [], raw_responses := [] }

/-- An opaque `Runner.run` that succeeds with `plainRunResult` on every
input. -/
def okRun : InputPayload → Except ExcInfo RunnerResult :=
  fun _ => .ok plainRunResult

/-- An opaque `Runner.run` that throws on every input. -/
def failRun : InputPayload → Except ExcInfo RunnerResult :=
  fun _ => .error { cls := .externalError, msg := "model backend unreachable" }

/-! ## The claims -/

/-- C1. The claim: for every process state, `GET /health` returns a body
`{status, agent_initialized}` without raising, with `agent_initialized`
true exactly when a live agent handle exists, and after a startup
failure the service reports `agent_initialized: false` instead of
crashing. What the code does: the degraded half holds — with
`_agent_runner = None` the endpoint answers `agent_initialized: false` —
but whenever `_agent_runner` holds an actual `AgentRunner` (the
non-degraded state), line 132 of `app.py` dereferences
`_agent_runner._executor`, an attribute `AgentRunner` does not define, so
the endpoint raises `AttributeError` instead of answering. This theorem
evaluates `health_check` at both process states. -/
theorem c1_health_check_raises_on_live_runner :
    health_check none = .ok { status := "ok", agent_initialized := false }
    ∧ health_check (some readyRunner)
        = .error { info := { cls := .attributeError,
                             msg := "AgentRunner object has no attribute _executor" },
                   cause := none }
    ∧ health_check (some freshRunner)
        = .error { info := { cls := .attributeError,
                             msg := "AgentRunner object has no attribute _executor" },
                   cause := none } :=
  ⟨rfl, rfl, rfl⟩

/-- The `initialize` environment in which agent and server construction
succeed and the subprocess start/handshake (`await __aenter__()`) fails. -/
def aenterFailEnv : InitEnv :=
  { agentCtor := .ok 1, serverCtor := .ok 2,
    aenter := .error { cls := .externalError, msg := "handshake failed" },
    build := .ok 3 }

/-- C2. The claim: any failure during `AgentRunner.initialize` leaves the
manager in the uninitialized state — exactly the state before the call —
raises an `AgentRunnerError` wrapping the cause, and a later call can
retry the full sequence. What the code does at the failing input modelled
by `aenterFailEnv` (subprocess start/handshake fails after
`self.mcp_server = MCPServerStdio(...)` was assigned): the error is
raised with the right message and cause, but the runner is left
half-initialized — `mcp_server` assigned, `agent_instance` still `None` —
and every subsequent `initialize` call, whatever its environment, hits
the `if self.mcp_server is not None: return` early exit and performs no
retry, so the manager can never become ready. -/
theorem c2_aenter_failure_leaves_half_initialized_state (env2 : InitEnv) :
    (freshRunner.initAgent aenterFailEnv).1.mcp_server = some 2
    ∧ (freshRunner.initAgent aenterFailEnv).1.agent_instance = none
    ∧ (freshRunner.initAgent aenterFailEnv).2
        = .error { info := { cls := .agentRunnerError,
                             msg := "Failed to initialize agent: handshake failed" },
                   cause := some { cls := .externalError, msg := "handshake failed" } }
    ∧ (freshRunner.initAgent aenterFailEnv).1.initAgent env2
        = ((freshRunner.initAgent aenterFailEnv).1, .ok ()) :=
  ⟨rfl, rfl, rfl, rfl⟩

/-- C3 counterexample. The claim: N concurrent invocations of the
initialization path from the uninitialized state make exactly one
subprocess start attempt, because the path is guarded by an exclusive
initialization lock with a readiness re-check. Neither path takes a lock
(`server.py` uses its `_agent_lock` only around `Runner.run`, and
`agent_runner.py` has no lock at all), and in
`_ensure_agent_initialized` the interleaving in which both coroutines run
their entry check before either assigns `_agent_instance` makes two start
attempts: with two concurrent first requests, the schedule that runs
coroutine 0's entry segment and then coroutine 1's entry segment reaches
two subprocess start attempts. -/
theorem c3_two_spawns_in_server_variant :
    (runSched serverInitStep
        { agent_instance := none, server_cm := none, spawn_attempts := 0 }
        [Pc.entry, Pc.entry] [0, 1]).1.spawn_attempts = 2 :=
  rfl

/-- The invariant tying the backend runner's spawn count to its server
handle: an attempt has been made exactly when `mcp_server` is assigned. -/
def backendInv (s : BackendInitState) : Prop :=
  s.spawn_attempts = if s.runner.mcp_server.isSome then 1 else 0

theorem backendInitStep_inv (s : BackendInitState) (pc : Pc) (h : backendInv s) :
    backendInv (backendInitStep s pc).1 := by
  cases pc with
  | entry =>
      by_cases hm : s.runner.mcp_server.isSome
      · simpa [backendInitStep, hm] using h
      · simp [backendInv, hm] at h
        simp [backendInitStep, hm, backendInv, h]
  | waiting => simpa [backendInitStep, backendInv] using h
  | done => exact h

theorem backendInitStep_mono (s : BackendInitState) (pc : Pc)
    (h : s.runner.mcp_server.isSome = true) :
    (backendInitStep s pc).1.runner.mcp_server.isSome = true := by
  cases pc with
  | entry => simp [backendInitStep, h]
  | waiting => simpa [backendInitStep] using h
  | done => exact h

theorem runSched_backend_inv (sched : List Nat) (pcs : List Pc)
    (s : BackendInitState) (h : backendInv s) :
    backendInv (runSched backendInitStep s pcs sched).1 := by
  induction sched generalizing s pcs with
  | nil => exact h
  | cons i rest ih =>
      rw [runSched]
      cases hpc : pcs[i]? with
      | none => exact ih pcs s h
      | some pc =>
          rcases hstep : backendInitStep s pc with ⟨s1, pc1⟩
          have h1 := backendInitStep_inv s pc h
          rw [hstep] at h1
          simpa [hstep] using ih (pcs.set i pc1) s1 h1

theorem runSched_backend_mono (sched : List Nat) (pcs : List Pc)
    (s : BackendInitState) (h : s.runner.mcp_server.isSome = true) :
    (runSched backendInitStep s pcs sched).1.runner.mcp_server.isSome = true := by
  induction sched generalizing s pcs with
  | nil => exact h
  | cons i rest ih =>
      rw [runSched]
      cases hpc : pcs[i]? with
      | none => exact ih pcs s h
      | some pc =>
          rcases hstep : backendInitStep s pc with ⟨s1, pc1⟩
          have h1 := backendInitStep_mono s pc h
          rw [hstep] at h1
          simpa [hstep] using ih (pcs.set i pc1) s1 h1

/-- The backend shared state right after the first coroutine's entry
segment: handle assigned, one start attempt made, agent not yet built. -/
def spawnedBackendState : BackendInitState :=
  { runner := { common_tables := COMMON_TABLES, mcp_server := some 0,
                agent_instance := none },
    spawn_attempts := 1 }

/-- C3 as amended. No initialization lock exists; what is true instead:
in the backend `AgentRunner.initialize`, the handle assignment
`self.mcp_server = ...` precedes the only suspension point, so under the
cooperative scheduler any interleaving of any number of concurrent calls
from the uninitialized state makes at most one subprocess start attempt —
and exactly one on any schedule in which some coroutine has run its entry
segment (later callers return early, even before the agent is ready). In
the python-agent variant `_ensure_agent_initialized`, where the checked
field is assigned only after the await, two concurrent first requests can
make two start attempts (`c3_two_spawns_in_server_variant`). -/
theorem c3_backend_single_spawn_no_lock :
    (∀ (n : Nat) (sched : List Nat),
       (runSched backendInitStep { runner := freshRunner, spawn_attempts := 0 }
          (List.replicate n Pc.entry) sched).1.spawn_attempts ≤ 1)
    ∧ (∀ (pcs : List Pc) (sched : List Nat),
       (runSched backendInitStep { runner := freshRunner, spawn_attempts := 0 }
          (Pc.entry :: pcs) (0 :: sched)).1.spawn_attempts = 1) := by
  constructor
  · intro n sched
    have h0 : backendInv { runner := freshRunner, spawn_attempts := 0 } := by
      simp [backendInv, freshRunner]
    have h := runSched_backend_inv sched (List.replicate n Pc.entry) _ h0
    rw [backendInv] at h
    rw [h]
    by_cases hm :
        (runSched backendInitStep { runner := freshRunner, spawn_attempts := 0 }
          (List.replicate n Pc.entry) sched).1.runner.mcp_server.isSome <;>
      simp [hm]
  · intro pcs sched
    rw [runSched]
    have hstep : backendInitStep { runner := freshRunner, spawn_attempts := 0 } Pc.entry
        = (spawnedBackendState, Pc.waiting) := by
      simp [backendInitStep, freshRunner, spawnedBackendState]
    simp only [List.getElem?_cons_zero, hstep]
    have h1 : backendInv spawnedBackendState := by
      simp [backendInv, spawnedBackendState]
    have h := runSched_backend_inv sched ((Pc.entry :: pcs).set 0 Pc.waiting) _ h1
    have hm := runSched_backend_mono sched ((Pc.entry :: pcs).set 0 Pc.waiting)
      spawnedBackendState (by simp [spawnedBackendState])
    rw [backendInv, hm] at h
    simpa using h

/-- The metadata a successful `add_message` call leaves on the session:
unchanged unless a truthy metadata dict was supplied with role
`"assistant"`, in which case `last_response` is overwritten with the
extracted payload. -/
def addedMetadata (s : ChatSession) (role : String) :
    Option MsgMetadata → SessionMetadata
  | none => s.metadata
  | some v =>
      if v.isTruthy then
        if role = "assistant" then { last_response := some (extractLastResponse v) }
        else s.metadata
      else s.metadata

/-- The session a successful `add_message` call stores: message appended,
`updated_at` advanced, metadata as `addedMetadata`. -/
def appendedSession (s : ChatSession) (role content : String)
    (md : Option MsgMetadata) (now : Nat) : ChatSession :=
  { session_id := s.session_id, created_at := s.created_at, updated_at := now,
    messages := s.messages ++ [Msg.mk role content],
    metadata := addedMetadata s role md }

/-- Characterization of `add_message` on a known session: the stored
session spelled out. -/
theorem add_message_ok (m : SessionManager) (sid role content : String)
    (md : Option MsgMetadata) (now : Nat) (s : ChatSession)
    (h : m.get_session sid = some s) :
    m.add_message sid role content md now
      = .ok { sessions :=
          dictInsert sid (appendedSession s role content md now) m.sessions } := by
  unfold SessionManager.add_message
  rw [h]
  cases md with
  | none => rfl
  | some v =>
      by_cases hv : v.isTruthy <;> by_cases hr : role = "assistant" <;>
        simp [appendedSession, addedMetadata, hv, hr]

/-- C5. The `add_message` contract: an unknown session id fails with the
not-found `ValueError`; a known one gets exactly the `{role, content}`
message appended at the end and its `updated_at` set to the call's clock
reading; and appending an `assistant` message with a metadata payload
stores exactly the supplied `{tools, tokens, time_ms}` payload as the
session's `last_response`, discarding any prior value (the resulting
metadata does not depend on the session's previous metadata at all). -/
theorem c5_add_message_contract :
    (∀ (m : SessionManager) (sid role content : String) (md : Option MsgMetadata)
       (now : Nat),
       m.get_session sid = none →
       m.add_message sid role content md now
         = .error { info := { cls := .valueError,
                              msg := "Session " ++ sid ++ " not found" },
                    cause := none })
    ∧ (∀ (m : SessionManager) (sid role content : String) (md : Option MsgMetadata)
       (now : Nat) (s : ChatSession),
       m.get_session sid = some s →
       ∃ m2 s2, m.add_message sid role content md now = .ok m2
         ∧ m2.get_session sid = some s2
         ∧ s2.messages = s.messages ++ [Msg.mk role content]
         ∧ s2.updated_at = now)
    ∧ (∀ (m : SessionManager) (sid content : String) (tools tokens : NatDict)
       (tms : Nat) (now : Nat) (s : ChatSession),
       m.get_session sid = some s →
       ∃ m2, m.add_message sid "assistant" content
           (some (MsgMetadata.mk (some tools) (some tokens) (some tms))) now = .ok m2
         ∧ m2.get_session sid
             = some (ChatSession.mk s.session_id s.created_at now
                 (s.messages ++ [Msg.mk "assistant" content])
                 (SessionMetadata.mk (some (LastResponse.mk tools tokens tms))))) := by
  refine ⟨?_, ?_, ?_⟩
  · intro m sid role content md now h
    unfold SessionManager.add_message
    rw [h]
  · intro m sid role content md now s h
    rw [add_message_ok m sid role content md now s h]
    refine ⟨_, appendedSession s role content md now, rfl, ?_, rfl, rfl⟩
    simpa [SessionManager.get_session] using
      dictLookup_dictInsert_self sid _ m.sessions
  · intro m sid content tools tokens tms now s h
    rw [add_message_ok m sid "assistant" content _ now s h]
    refine ⟨_, rfl, ?_⟩
    simpa [SessionManager.get_session, appendedSession, addedMetadata,
           MsgMetadata.isTruthy, extractLastResponse] using
      dictLookup_dictInsert_self sid _ m.sessions

/-- A session with one prior `last_response` payload, used to exercise the
metadata-overwrite path at a concrete input. -/
def staleSession : ChatSession :=
  { session_id := "s1", created_at := 3, updated_at := 4,
    messages := [Msg.mk "user" "Hello"],
    metadata := { last_response := some { tools := [("old_tool", 1)],
                                          tokens := [], time_ms := 5 } } }

/-- A manager holding exactly `staleSession`. -/
def staleManager : SessionManager := { sessions := [("s1", staleSession)] }

/-- C5 witness: the contract applied at a concrete input — appending an
assistant message with a fresh metadata payload to `staleManager`
overwrites the stale `last_response` exactly with the new payload. -/
theorem c5_add_message_contract_witness :
    ∃ m2, staleManager.add_message "s1" "assistant" "Answer"
        (some (MsgMetadata.mk (some [("query_table", 2)])
          (some [("input_tokens", 3)]) (some 37))) 9
        = .ok m2
      ∧ m2.get_session "s1"
          = some (ChatSession.mk "s1" 3 9
              [Msg.mk "user" "Hello", Msg.mk "assistant" "Answer"]
              (SessionMetadata.mk (some
                (LastResponse.mk [("query_table", 2)] [("input_tokens", 3)] 37)))) := by
  have h := c5_add_message_contract.2.2 staleManager "s1" "Answer"
    [("query_table", 2)] [("input_tokens", 3)] 37 9 staleSession (by rfl)
  simpa [staleSession] using h

/-- C8. The session invariants across the store's mutating operations:
`add_message` appends exactly one message at the end leaving every
existing message unchanged in order, never changes the session id or
`created_at`, and moves `updated_at` forward (non-decreasing whenever the
clock is); `create_session` stores a session with an empty message list
and `created_at = updated_at`. -/
theorem c8_session_invariants :
    (∀ (m : SessionManager) (sid role content : String) (md : Option MsgMetadata)
       (now : Nat) (s : ChatSession),
       m.get_session sid = some s → s.updated_at ≤ now →
       ∃ m2 s2, m.add_message sid role content md now = .ok m2
         ∧ m2.get_session sid = some s2
         ∧ s2.messages = s.messages ++ [Msg.mk role content]
         ∧ s2.messages.length = s.messages.length + 1
         ∧ s2.messages.take s.messages.length = s.messages
         ∧ s2.session_id = s.session_id
         ∧ s2.created_at = s.created_at
         ∧ s.updated_at ≤ s2.updated_at)
    ∧ (∀ (m : SessionManager) (fid : String) (now : Nat),
       ((m.create_session fid now).1).get_session fid
         = some { session_id := fid, created_at := now, updated_at := now,
                  messages := [], metadata := { last_response := none } }) := by
  constructor
  · intro m sid role content md now s h hclock
    rw [add_message_ok m sid role content md now s h]
    refine ⟨_, appendedSession s role content md now, rfl, ?_, rfl, ?_, ?_,
      rfl, rfl, hclock⟩
    · simpa [SessionManager.get_session] using
        dictLookup_dictInsert_self sid _ m.sessions
    · simp [appendedSession]
    · simp [appendedSession, List.take_left]
  · intro m fid now
    simpa [SessionManager.create_session, SessionManager.get_session,
           blankSession] using
      dictLookup_dictInsert_self fid _ m.sessions

/-- C8 witness: the invariants applied at a concrete input. -/
theorem c8_session_invariants_witness :
    ∃ m2 s2, staleManager.add_message "s1" "user" "Next" none 7 = .ok m2
      ∧ m2.get_session "s1" = some s2
      ∧ s2.messages = [Msg.mk "user" "Hello", Msg.mk "user" "Next"]
      ∧ s2.messages.length = 2
      ∧ s2.session_id = "s1"
      ∧ s2.created_at = 3
      ∧ 4 ≤ s2.updated_at := by
  obtain ⟨m2, s2, hok, hget, hmsgs, hlen, _, hid, hcr, hupd⟩ :=
    c8_session_invariants.1 staleManager "s1" "user" "Next" none 7 staleSession
      (by rfl) (by simp [staleSession])
  exact ⟨m2, s2, hok, hget, by simpa [staleSession] using hmsgs,
    by simpa [staleSession] using hlen, by simpa [staleSession] using hid,
    by simpa [staleSession] using hcr, by simpa [staleSession] using hupd⟩

/-- C9. Save/load round trip: the JSON document `_save_session` writes for
a session decodes back (via the `ChatSession(**data)` path
`_load_all_sessions` uses) to an identical session, and loading that one
document into an empty in-memory table reproduces exactly the original
table entry — same id, timestamps, messages and metadata. -/
theorem c9_save_load_roundtrip (s : ChatSession) :
    ChatSession.ofDict s.to_dict = some s
    ∧ (SessionManager.mk [(s.session_id, s)]).save_session_doc s.session_id
        = some s.to_dict
    ∧ (SessionManager.load_all_sessions [s.to_dict] emptyManager).sessions
        = [(s.session_id, s)]
    ∧ (SessionManager.load_all_sessions [s.to_dict] emptyManager).get_session
        s.session_id = some s := by
  refine ⟨chatSession_roundtrip s, ?_, ?_, ?_⟩
  · simp [SessionManager.save_session_doc, SessionManager.get_session, dictLookup]
  · simp [SessionManager.load_all_sessions, chatSession_roundtrip, emptyManager,
          dictInsert]
  · simp [SessionManager.load_all_sessions, chatSession_roundtrip, emptyManager,
          dictInsert, SessionManager.get_session, dictLookup]

/-- On a known session id, the create-or-get block is the identity: the
supplied id is used and nothing is created. -/
theorem createOrGetSession_known (mgr : SessionManager) (sid : String)
    (ids : List String) (ts : List Nat) (s : ChatSession)
    (hsid : ¬ sid = "") (h : mgr.get_session sid = some s) :
    createOrGetSession mgr (some sid) ids ts = (mgr, sid, ids, ts) := by
  unfold createOrGetSession
  simp [strFalsy, hsid, h]

/-- C10. In the chat endpoint's handler body, session state is mutated
only after a successful agent run: when `run_turn` fails, the handler
returns the 500 error with the store exactly as it was (no user message,
no assistant message, no `updated_at` change); when it succeeds, exactly
the user message and then the assistant message are appended, the latter
carrying the `tools`/`tokens`/`time_ms` metadata of the turn. -/
theorem c10_chat_mutates_only_after_success (mgr : SessionManager)
    (sid message : String) (ids : List String) (t1 t2 : Nat) (ts : List Nat)
    (runner_run : InputPayload → Except ExcInfo RunnerResult) (dt : Nat)
    (runner : AgentRunner) (s : ChatSession)
    (hsid : ¬ sid = "") (hget : mgr.get_session sid = some s) :
    (∀ e, runner.run_turn message (mgr.get_conversation_items sid) runner_run dt
        = .error e →
      chatTurn mgr (ChatRequest.mk (some sid) message) ids (t1 :: t2 :: ts)
          runner_run dt runner
        = (mgr, .error (excToHTTP e)))
    ∧ (∀ tr, runner.run_turn message (mgr.get_conversation_items sid) runner_run dt
        = .ok tr →
      ∃ m2 s2,
        chatTurn mgr (ChatRequest.mk (some sid) message) ids (t1 :: t2 :: ts)
            runner_run dt runner
          = (m2, .ok (ChatResponse.mk sid tr.response_text tr.tools_used
              tr.token_usage (tr.time_taken * 1000)))
        ∧ m2.get_session sid = some s2
        ∧ s2.messages
            = s.messages ++ [Msg.mk "user" message, Msg.mk "assistant" tr.response_text]
        ∧ s2.metadata = SessionMetadata.mk (some
            (LastResponse.mk tr.tools_used tr.token_usage (tr.time_taken * 1000)))
        ∧ s2.session_id = s.session_id
        ∧ s2.created_at = s.created_at
        ∧ s2.updated_at = t2) := by
  have hcog := createOrGetSession_known mgr sid ids (t1 :: t2 :: ts) s hsid hget
  constructor
  · intro e he
    unfold chatTurn
    rw [hcog]
    simp only [popT]
    rw [he]
  · intro tr htr
    unfold chatTurn
    rw [hcog]
    simp only [popT]
    rw [htr]
    simp only [popT]
    have hget2 : SessionManager.get_session
        { sessions := dictInsert sid (appendedSession s "user" message none t1)
            mgr.sessions } sid
        = some (appendedSession s "user" message none t1) := by
      simpa [SessionManager.get_session] using
        dictLookup_dictInsert_self sid _ mgr.sessions
    simp only [add_message_ok mgr sid "user" message none t1 s hget]
    simp only [add_message_ok _ sid "assistant" tr.response_text _ t2 _ hget2]
    refine ⟨_, appendedSession (appendedSession s "user" message none t1)
      "assistant" tr.response_text
      (some (MsgMetadata.mk (some tr.tools_used) (some tr.token_usage)
        (some (tr.time_taken * 1000)))) t2, rfl, ?_, ?_, ?_, rfl, rfl, rfl⟩
    · simpa [SessionManager.get_session] using
        dictLookup_dictInsert_self sid _ _
    · simp [appendedSession]
    · simp [appendedSession, addedMetadata, MsgMetadata.isTruthy, extractLastResponse]

/-- C4 counterexample. The claim: a chat request with an unknown
`session_id` implicitly creates a session with exactly the caller's id and
responds with that id. At the concrete input — empty store, request id
`"abc"`, fresh ids `"uuid-1"`/`"uuid-2"`, a successful run — the code
instead answers with session id `"uuid-2"` and no session `"abc"` exists
afterwards. -/
theorem c4_counterexample :
    ((chatTurn emptyManager (ChatRequest.mk (some "abc") "Hello")
        ["uuid-1", "uuid-2"] [1, 2, 3, 4] okRun 5 readyRunner).2
      = .ok (ChatResponse.mk "uuid-2" "Hi there" []
          [("input_tokens", 0), ("output_tokens", 0), ("total_tokens", 0)] 5000))
    ∧ (chatTurn emptyManager (ChatRequest.mk (some "abc") "Hello")
        ["uuid-1", "uuid-2"] [1, 2, 3, 4] okRun 5 readyRunner).1.get_session "abc"
        = none
    ∧ ¬ ("uuid-2" = "abc") :=
  ⟨rfl, rfl, by decide⟩

/-- C4 as amended. For every chat request with a non-empty `session_id`
not present in the store (and fresh generated ids, as `uuid4` guarantees),
the caller-supplied id is not preserved: the handler creates one session
under a first fresh id (orphaned), then — the supplied id still being
absent — creates and uses a session under a second fresh id; afterwards no
session with the caller-supplied id exists, and a successful response
carries the second generated id. -/
theorem c4_unknown_session_id_not_preserved (mgr : SessionManager)
    (sid message u1 u2 : String) (ids : List String)
    (t1 t2 t3 t4 : Nat) (ts : List Nat)
    (runner_run : InputPayload → Except ExcInfo RunnerResult) (dt : Nat)
    (runner : AgentRunner)
    (hsid : ¬ sid = "") (hget : mgr.get_session sid = none)
    (hu1 : ¬ u1 = sid) (hu2 : ¬ u2 = sid) :
    ((chatTurn mgr (ChatRequest.mk (some sid) message) (u1 :: u2 :: ids)
        (t1 :: t2 :: t3 :: t4 :: ts) runner_run dt runner).1.get_session sid
      = none)
    ∧ (∀ resp, (chatTurn mgr (ChatRequest.mk (some sid) message) (u1 :: u2 :: ids)
        (t1 :: t2 :: t3 :: t4 :: ts) runner_run dt runner).2 = .ok resp →
        resp.session_id = u2) := by
  have hne1 : dictLookup sid (dictInsert u1 (blankSession u1 t1) mgr.sessions)
      = none := by
    rw [dictLookup_dictInsert_ne u1 sid _ _ (Ne.symm hu1)]
    exact hget
  have hne2 : dictLookup sid (dictInsert u2 (blankSession u2 t2)
      (dictInsert u1 (blankSession u1 t1) mgr.sessions)) = none := by
    rw [dictLookup_dictInsert_ne u2 sid _ _ (Ne.symm hu2)]
    exact hne1
  have hget1 : dictLookup sid mgr.sessions = none := hget
  have hcog : createOrGetSession mgr (some sid) (u1 :: u2 :: ids)
      (t1 :: t2 :: t3 :: t4 :: ts)
      = ({ sessions := dictInsert u2 (blankSession u2 t2)
            (dictInsert u1 (blankSession u1 t1) mgr.sessions) },
         u2, ids, t3 :: t4 :: ts) := by
    simp [createOrGetSession, strFalsy, hsid, SessionManager.get_session,
          hget1, popId, popT, SessionManager.create_session, hne1]
  have hconv : SessionManager.get_conversation_items
      { sessions := dictInsert u2 (blankSession u2 t2)
          (dictInsert u1 (blankSession u1 t1) mgr.sessions) } u2 = none := by
    simp [SessionManager.get_conversation_items, SessionManager.get_session,
          dictLookup_dictInsert_self, blankSession]
  have hgetu2 : SessionManager.get_session
      { sessions := dictInsert u2 (blankSession u2 t2)
          (dictInsert u1 (blankSession u1 t1) mgr.sessions) } u2
      = some (blankSession u2 t2) := by
    simpa [SessionManager.get_session] using
      dictLookup_dictInsert_self u2 _ _
  unfold chatTurn
  rw [hcog]
  simp only [popT]
  rw [hconv]
  cases hrun : runner.run_turn message none runner_run dt with
  | error e =>
      constructor
      · simpa [SessionManager.get_session] using hne2
      · intro resp hresp
        simp at hresp
  | ok tr =>
      simp only [add_message_ok _ u2 "user" message none t3 _ hgetu2]
      have hgetu2b : SessionManager.get_session
          { sessions := dictInsert u2
              (appendedSession (blankSession u2 t2) "user" message none t3)
              (dictInsert u2 (blankSession u2 t2)
                (dictInsert u1 (blankSession u1 t1) mgr.sessions)) } u2
          = some (appendedSession (blankSession u2 t2) "user" message none t3) := by
        simpa [SessionManager.get_session] using
          dictLookup_dictInsert_self u2 _ _
      simp only [add_message_ok _ u2 "assistant" tr.response_text _ t4 _ hgetu2b]
      constructor
      · rw [SessionManager.get_session]
        rw [dictLookup_dictInsert_ne u2 sid _ _ (Ne.symm hu2)]
        rw [dictLookup_dictInsert_ne u2 sid _ _ (Ne.symm hu2)]
        exact hne2
      · intro resp hresp
        simp only [Except.ok.injEq] at hresp
        rw [← hresp]

/-- C4 witness: the amended behaviour at the counterexample's concrete
input, derived by applying the amended theorem there. -/
theorem c4_unknown_session_id_not_preserved_witness :
    ((chatTurn emptyManager (ChatRequest.mk (some "abc") "Hello")
        ["uuid-1", "uuid-2"] [1, 2, 3, 4] okRun 5 readyRunner).1.get_session "abc"
      = none)
    ∧ (∀ resp, (chatTurn emptyManager (ChatRequest.mk (some "abc") "Hello")
        ["uuid-1", "uuid-2"] [1, 2, 3, 4] okRun 5 readyRunner).2 = .ok resp →
        resp.session_id = "uuid-2") :=
  c4_unknown_session_id_not_preserved emptyManager "abc" "Hello" "uuid-1" "uuid-2"
    [] 1 2 3 4 [] okRun 5 readyRunner (by decide) rfl (by decide) (by decide)

/-- C6 counterexample. The claim: every context combination yields one
ordered message sequence ending with the new user message; in particular,
a first turn with no prior history assembles exactly
`[{role: user, content: <message>}]`. In the backend path that scenario
(`get_conversation_items` returning `None`) makes `run_turn` pass the bare
user string as the input payload — not a message sequence at all, and not
the singleton list. -/
theorem c6_counterexample :
    buildInputPayload "Hello" none = InputPayload.str "Hello"
    ∧ ¬ (buildInputPayload "Hello" none
          = InputPayload.items [Msg.mk "user" "Hello"]) :=
  ⟨rfl, by decide⟩

theorem getLast_append_singleton (l : List Msg) (a : Msg) :
    (l ++ [a]).getLast? = some a := by
  simp [List.getLast?_concat]

/-- C6 as amended. The python-agent assembler `_build_agent_input` always
produces one message sequence whose last element is the new user message,
with the prefix chosen by the precedence explicit conversation > (system
prompt + message list) > nothing, and the no-context case gives exactly
the singleton user message. The backend path (`run_turn`) appends the new
user message after the stored history when there is one, but with no
prior history it passes the bare user string instead of the singleton
list. -/
theorem c6_assembler_amended :
    (∀ payload : AgentServer.ChatRequest,
       (AgentServer._build_agent_input payload).getLast?
         = some (Msg.mk "user" payload.input))
    ∧ (∀ (payload : AgentServer.ChatRequest) (c : List Msg),
       payload.conversation = some c → ¬ c = [] →
       AgentServer._build_agent_input payload = c ++ [Msg.mk "user" payload.input])
    ∧ (∀ (payload : AgentServer.ChatRequest) (p : String),
       AgentServer.truthyConversation payload.conversation = false →
       payload.prompt = some p → ¬ p = "" →
       AgentServer._build_agent_input payload
         = Msg.mk "system" p :: payload.messages ++ [Msg.mk "user" payload.input])
    ∧ (∀ payload : AgentServer.ChatRequest,
       AgentServer.truthyConversation payload.conversation = false →
       AgentServer.truthyPrompt payload.prompt = false →
       AgentServer._build_agent_input payload
         = payload.messages ++ [Msg.mk "user" payload.input])
    ∧ (∀ input : String,
       AgentServer._build_agent_input (AgentServer.ChatRequest.mk input [] none none)
         = [Msg.mk "user" input])
    ∧ (∀ (message : String) (items : List Msg),
       buildInputPayload message (some items)
         = .items (items ++ [Msg.mk "user" message]))
    ∧ (∀ message : String, buildInputPayload message none = .str message) := by
  refine ⟨?_, ?_, ?_, ?_, ?_, ?_, ?_⟩
  · intro payload
    exact getLast_append_singleton _ _
  · intro payload c hc hne
    cases c with
    | nil => exact absurd rfl hne
    | cons x xs =>
        simp [AgentServer._build_agent_input, AgentServer.truthyConversation, hc]
  · intro payload p hconv hp hpne
    simp [AgentServer._build_agent_input, hconv, AgentServer.truthyPrompt, hp, hpne]
  · intro payload hconv hprompt
    simp [AgentServer._build_agent_input, hconv, hprompt]
  · intro input
    rfl
  · intro message items
    rfl
  · intro message
    rfl

/-- C6 witness: the explicit-conversation precedence case applied at a
concrete input. -/
theorem c6_assembler_amended_witness :
    AgentServer._build_agent_input
        (AgentServer.ChatRequest.mk "Follow-up" [Msg.mk "user" "ignored"]
          (some "ignored prompt")
          (some [Msg.mk "user" "Hello", Msg.mk "assistant" "Hi there"]))
      = [Msg.mk "user" "Hello", Msg.mk "assistant" "Hi there",
         Msg.mk "user" "Follow-up"] :=
  c6_assembler_amended.2.1
    (AgentServer.ChatRequest.mk "Follow-up" [Msg.mk "user" "ignored"]
      (some "ignored prompt")
      (some [Msg.mk "user" "Hello", Msg.mk "assistant" "Hi there"]))
    [Msg.mk "user" "Hello", Msg.mk "assistant" "Hi there"] rfl (by decide)

/-- The observable exception class of a `run_turn` outcome. -/
def errClsOf : Except Exc TurnResult → Option ExcClass
  | .error e => some e.info.cls
  | .ok _ => none

/-- C7 counterexample. The claim: a turn against a non-ready handle fails
with an initialization-class error, distinguishable from the
execution-class error of a failing run against a ready handle. The code
has a single error class: both failures raise `AgentRunnerError`
(`agent_runner.py` line 136 and line 179), so at concrete inputs the two
error classes coincide. -/
theorem c7_counterexample :
    errClsOf (freshRunner.run_turn "Hello" none okRun 0)
      = errClsOf (readyRunner.run_turn "Hello" none failRun 0)
    ∧ errClsOf (freshRunner.run_turn "Hello" none okRun 0)
      = some ExcClass.agentRunnerError :=
  ⟨rfl, rfl⟩

/-- C7 as amended. Both failures raise the same class, `AgentRunnerError`;
they are distinguishable only by message and cause: a non-ready handle
raises message `"Agent not initialized. Call initialize() first."` with no
cause (the check sits outside the `try`, so nothing is wrapped), while a
failing run against a ready handle raises `"Agent execution failed: {e}"`
wrapping the cause `e`; the two exception values are never equal. -/
theorem c7_run_turn_errors_amended :
    (∀ (r : AgentRunner) (message : String) (conv : Option (List Msg))
       (runner_run : InputPayload → Except ExcInfo RunnerResult) (dt : Nat),
       r.agent_instance = none →
       r.run_turn message conv runner_run dt
         = .error (Exc.mk (ExcInfo.mk .agentRunnerError
             "Agent not initialized. Call initialize() first.") none))
    ∧ (∀ (r : AgentRunner) (message : String) (conv : Option (List Msg))
       (runner_run : InputPayload → Except ExcInfo RunnerResult) (dt : Nat)
       (e : ExcInfo) (inst : Nat),
       r.agent_instance = some inst →
       runner_run (buildInputPayload message conv) = .error e →
       r.run_turn message conv runner_run dt
         = .error (Exc.mk (ExcInfo.mk .agentRunnerError
             ("Agent execution failed: " ++ e.msg)) (some e)))
    ∧ (∀ e : ExcInfo,
       ¬ (Exc.mk (ExcInfo.mk .agentRunnerError
            "Agent not initialized. Call initialize() first.") none
          = Exc.mk (ExcInfo.mk .agentRunnerError
            ("Agent execution failed: " ++ e.msg)) (some e))) := by
  refine ⟨?_, ?_, ?_⟩
  · intro r message conv runner_run dt h
    simp [AgentRunner.run_turn, h]
  · intro r message conv runner_run dt e inst h hrun
    simp [AgentRunner.run_turn, h, hrun]
  · intro e h
    simp at h

/-- C7 witness: the execution-failure case applied at a concrete input. -/
theorem c7_run_turn_errors_amended_witness :
    readyRunner.run_turn "Hello" none failRun 0
      = .error (Exc.mk (ExcInfo.mk .agentRunnerError
          ("Agent execution failed: " ++ "model backend unreachable"))
          (some (ExcInfo.mk .externalError "model backend unreachable"))) :=
  c7_run_turn_errors_amended.2.1 readyRunner "Hello" none failRun 0
    (ExcInfo.mk .externalError "model backend unreachable") 1 rfl rfl

/-- A manager with one session that already has a message, to exercise the
chat flow at a concrete input. -/
def helloManager : SessionManager :=
  { sessions := [("s1", ChatSession.mk "s1" 0 0 [Msg.mk "user" "Hi"]
      (SessionMetadata.mk none))] }

/-- C10 witness: the success half applied at a concrete input. -/
theorem c10_chat_mutates_only_after_success_witness :
    ∃ m2 s2,
      chatTurn helloManager (ChatRequest.mk (some "s1") "Hello")
          [] (5 :: 6 :: []) okRun 3 readyRunner
        = (m2, .ok (ChatResponse.mk "s1" "Hi there" []
            [("input_tokens", 0), ("output_tokens", 0), ("total_tokens", 0)] 3000))
      ∧ m2.get_session "s1" = some s2
      ∧ s2.messages
          = [Msg.mk "user" "Hi", Msg.mk "user" "Hello", Msg.mk "assistant" "Hi there"]
      ∧ s2.metadata = SessionMetadata.mk (some
          (LastResponse.mk [] [("input_tokens", 0), ("output_tokens", 0),
            ("total_tokens", 0)] 3000))
      ∧ s2.updated_at = 6 := by
  obtain ⟨m2, s2, hrun, hget, hmsgs, hmd, _, _, hupd⟩ :=
    (c10_chat_mutates_only_after_success helloManager "s1" "Hello" [] 5 6 []
        okRun 3 readyRunner
        (ChatSession.mk "s1" 0 0 [Msg.mk "user" "Hi"] (SessionMetadata.mk none))
        (by decide) (by rfl)).2
      (TurnResult.mk "Hi there" []
        [("input_tokens", 0), ("output_tokens", 0), ("total_tokens", 0)] 3)
      (by rfl)
  exact ⟨m2, s2, hrun, hget, by simpa using hmsgs, by simpa using hmd,
    by simpa using hupd⟩
